import Mathlib

/-!
Shallow embedding of the `tiptap-pagination-plus` pagination engine
(`src/src/PaginationPlus.ts` and the enhanced revision `src/unnamed/part_001`).

Heights, gaps and margins are JavaScript numbers; we embed them as `ℚ`.
DOM element counts and page indices are `ℕ`.
-/

/-- Footer text source: `footerText : string | string[] | ((pageNumber: number) => string)`
from the `PaginationPlusOptions` interface. -/
inductive FooterTextSource where
  | str (s : String)
  | arr (l : List String)
  | fn (f : ℕ → String)

/-- The `PaginationPlusOptions` interface of `PaginationPlus.ts`. -/
structure PaginationPlusOptions where
  pageHeight : ℚ
  pageGap : ℚ
  pageBreakBackground : String
  pageHeaderHeight : ℚ
  pageFooterHeight : ℚ
  pageMarginLeft : ℚ
  pageMarginRight : ℚ
  pageGapBorderSize : ℚ
  footerText : FooterTextSource

/-- The defaults returned by `addOptions()` in both engine revisions. -/
def defaultOptions : PaginationPlusOptions :=
  { pageHeight := 800
    pageGap := 50
    pageGapBorderSize := 1
    pageBreakBackground := "#ffffff"
    pageHeaderHeight := 10
    pageFooterHeight := 10
    pageMarginLeft := 0
    pageMarginRight := 0
    footerText := .str "" }

/-- JavaScript string disjunction `a || b` restricted to strings: a string is
falsy exactly when it is empty (and a missing array entry, modelled as `""`,
is falsy as well). -/
def jsOrString (a b : String) : String :=
  if a = "" then b else a

/-- Footer text resolution from `createPageBreak` (`src/unnamed/part_001`,
lines 262-269; the `src/src/PaginationPlus.ts` revision at lines 456-466 adds a
`length > 0` guard on the array branch that does not change the result, since
an empty array resolves to `""` either way):

    let footerText = ""
    if (typeof pageOptions.footerText === "string") footerText = pageOptions.footerText
    else if (Array.isArray(pageOptions.footerText))
      footerText = pageOptions.footerText[pageIndex]
        || pageOptions.footerText[pageOptions.footerText.length - 1] || ""
    else if (typeof pageOptions.footerText === "function")
      footerText = pageOptions.footerText(pageIndex + 1)

The out-of-range JavaScript read `footerText[pageIndex]` yields `undefined`,
which is falsy like `""`, so it is modelled by `List.getD _ ""`. -/
def resolveFooterText (src : FooterTextSource) (pageIndex : ℕ) : String :=
  match src with
  | .str s => s
  | .arr l => jsOrString (l.getD pageIndex "") (jsOrString (l.getD (l.length - 1) "") "")
  | .fn f => f (pageIndex + 1)

/-- One synthesized page-break widget (`createPageBreak` /
`pageBreakDefinition`): the geometry-bearing fields of the DOM subtree
`.rm-page-break > (.page, .breaker > (.rm-page-footer, .rm-pagination-gap, .rm-page-header))`. -/
structure PageBreakDescriptor where
  pageIndex : ℕ
  isFirstPage : Bool
  bodyMarginTop : ℚ
  footerHeight : ℚ
  footerText : String
  gapHeight : ℚ
  gapBackground : String
  headerHeight : ℚ
deriving DecidableEq

/-- `createPageBreak({firstPage, pageIndex, pageOptions})` from
`src/unnamed/part_001` lines 217-294 (identically `pageBreakDefinition` in
`src/src/PaginationPlus.ts` lines 420-493): the page body's top margin is
`calc(headerHeight + contentBand)` on the first page and `contentBand`
otherwise, where `contentBand = pageHeight - (headerHeight + footerHeight)`;
the footer band has height `pageFooterHeight` and carries the resolved footer
text; the gap band has height `pageGap` and the configured background; the
header band has height `pageHeaderHeight`. -/
def createPageBreak (firstPage : Bool) (pageIndex : ℕ) (g : PaginationPlusOptions) :
    PageBreakDescriptor :=
  let _pageHeight := g.pageHeight - (g.pageHeaderHeight + g.pageFooterHeight)
  { pageIndex := pageIndex
    isFirstPage := firstPage
    bodyMarginTop := if firstPage then g.pageHeaderHeight + _pageHeight else _pageHeight
    footerHeight := g.pageFooterHeight
    footerText := resolveFooterText g.footerText pageIndex
    gapHeight := g.pageGap
    gapBackground := g.pageBreakBackground
    headerHeight := g.pageHeaderHeight }

/-- The break-synthesis loop of `createDecoration`
(`src/unnamed/part_001` lines 329-338, `src/src/PaginationPlus.ts` lines
501-521): `for (let i = 0; i < pages + _extraPages; i++)` emit a page break
with `firstPage: i === 0`, `pageIndex: i`, where `_extraPages = 5`. -/
def synthesize (pages : ℕ) (g : PaginationPlusOptions) : List PageBreakDescriptor :=
  (List.range (pages + 5)).map fun i => createPageBreak (decide (i = 0)) i g

/-- The page-count estimation in `createDecoration`
(`src/unnamed/part_001` lines 300-326, `src/src/PaginationPlus.ts` lines
389-414), as a function of the sampled total content height and the number of
children of the previously rendered `[data-rm-pagination]` element:

    const _extraPages = 5
    const _pageHeight = pageHeight - (_pageHeaderHeight + _pageFooterHeight)
    let previousPageCount = paginationElement ? paginationElement.children.length : 0
    previousPageCount = previousPageCount > _extraPages ? previousPageCount - _extraPages : 0
    const totalPageGap = _pageGap + _pageHeaderHeight + _pageFooterHeight
    const actualPageContentHeight = totalHeight - previousPageCount * (totalPageGap + _pageGapBorderSize * 2)
    let pages = Math.ceil(actualPageContentHeight / _pageHeight)
    pages = pages > 0 ? pages - 1 : 0
-/
def estimatePages (totalHeight : ℚ) (previousRendered : ℕ) (g : PaginationPlusOptions) : ℕ :=
  let _extraPages : ℕ := 5
  let _pageHeight : ℚ := g.pageHeight - (g.pageHeaderHeight + g.pageFooterHeight)
  let previousPageCount : ℕ :=
    if previousRendered > _extraPages then previousRendered - _extraPages else 0
  let totalPageGap : ℚ := g.pageGap + g.pageHeaderHeight + g.pageFooterHeight
  let actualPageContentHeight : ℚ :=
    totalHeight - (previousPageCount : ℚ) * (totalPageGap + g.pageGapBorderSize * 2)
  let pages : ℤ := ⌈actualPageContentHeight / _pageHeight⌉
  if pages > 0 then (pages - 1).toNat else 0

/-- Closed form of the estimator: the guarded decrement
`pages > 0 ? pages - 1 : 0` is `(pages - 1).toNat`. -/
theorem estimatePages_closed_form (H : ℚ) (prev : ℕ) (g : PaginationPlusOptions) :
    estimatePages H prev g =
      (⌈(H - ((if prev > 5 then prev - 5 else 0 : ℕ) : ℚ) *
          (g.pageGap + g.pageHeaderHeight + g.pageFooterHeight + g.pageGapBorderSize * 2)) /
        (g.pageHeight - (g.pageHeaderHeight + g.pageFooterHeight))⌉ - 1).toNat := by
  show (if (⌈(H - ((if prev > 5 then prev - 5 else 0 : ℕ) : ℚ) *
          (g.pageGap + g.pageHeaderHeight + g.pageFooterHeight + g.pageGapBorderSize * 2)) /
        (g.pageHeight - (g.pageHeaderHeight + g.pageFooterHeight))⌉ : ℤ) > 0
      then ((⌈(H - ((if prev > 5 then prev - 5 else 0 : ℕ) : ℚ) *
          (g.pageGap + g.pageHeaderHeight + g.pageFooterHeight + g.pageGapBorderSize * 2)) /
        (g.pageHeight - (g.pageHeaderHeight + g.pageFooterHeight))⌉ : ℤ) - 1).toNat
      else 0) =
      (⌈(H - ((if prev > 5 then prev - 5 else 0 : ℕ) : ℚ) *
          (g.pageGap + g.pageHeaderHeight + g.pageFooterHeight + g.pageGapBorderSize * 2)) /
        (g.pageHeight - (g.pageHeaderHeight + g.pageFooterHeight))⌉ - 1).toNat
  generalize (⌈(H - ((if prev > 5 then prev - 5 else 0 : ℕ) : ℚ) *
      (g.pageGap + g.pageHeaderHeight + g.pageFooterHeight + g.pageGapBorderSize * 2)) /
    (g.pageHeight - (g.pageHeaderHeight + g.pageFooterHeight))⌉ : ℤ) = c
  split <;> omega

/-- Evaluation helper: once the ceiling of the adjusted-height quotient is
known, the estimator's value follows. -/
theorem estimatePages_eval (H : ℚ) (prev : ℕ) (g : PaginationPlusOptions) (c : ℤ)
    (h : ⌈(H - ((if prev > 5 then prev - 5 else 0 : ℕ) : ℚ) *
        (g.pageGap + g.pageHeaderHeight + g.pageFooterHeight + g.pageGapBorderSize * 2)) /
      (g.pageHeight - (g.pageHeaderHeight + g.pageFooterHeight))⌉ = c) :
    estimatePages H prev g = (c - 1).toNat := by
  rw [estimatePages_closed_form, h]

theorem estimatePages_10000_0 : estimatePages 10000 0 defaultOptions = 12 := by
  rw [estimatePages_eval 10000 0 defaultOptions 13 ?_]
  · rfl
  · rw [Int.ceil_eq_iff]
    constructor <;> norm_num [defaultOptions]

theorem estimatePages_10000_17 : estimatePages 10000 17 defaultOptions = 11 := by
  rw [estimatePages_eval 10000 17 defaultOptions 12 ?_]
  · rfl
  · rw [Int.ceil_eq_iff]
    constructor <;> norm_num [defaultOptions]

theorem estimatePages_0_5 : estimatePages 0 5 defaultOptions = 0 := by
  rw [estimatePages_eval 0 5 defaultOptions 0 ?_]
  · rfl
  · rw [Int.ceil_eq_iff]
    constructor <;> norm_num [defaultOptions]

/-- Length of the synthesized break list (shared helper). -/
theorem synthesize_length (pages : ℕ) (g : PaginationPlusOptions) :
    (synthesize pages g).length = pages + 5 := by
  simp [synthesize]

/-- One full resynthesis, as triggered by the plugin `apply` step: sample the
content height, estimate the page count, synthesize the break descriptors
(`createDecoration` in both revisions). `previousRendered` is the child count
of the `[data-rm-pagination]` element left by the previous layout. -/
def refreshOnce (totalHeight : ℚ) (previousRendered : ℕ) (g : PaginationPlusOptions) :
    List PageBreakDescriptor :=
  synthesize (estimatePages totalHeight previousRendered g) g

/-- Two successive resyntheses with no content change in between
(`refreshPagination()` invoked twice): the second resynthesis reads as its
previous-rendered count the number of descriptors the first one rendered. -/
def refreshTwice (totalHeight : ℚ) (previousRendered : ℕ) (g : PaginationPlusOptions) :
    List PageBreakDescriptor × List PageBreakDescriptor :=
  let l1 := refreshOnce totalHeight previousRendered g
  let l2 := refreshOnce totalHeight l1.length g
  (l1, l2)

/-- A ProseMirror transaction, restricted to the three fields the pagination
plugin's `apply` step inspects: `tr.docChanged`,
`tr.getMeta(pagination_meta_key)` and `tr.getMeta(resize_meta_key)`. -/
structure PmTransaction where
  docChanged : Bool
  paginationMeta : Bool
  resizeMeta : Bool

/-- The plugin state `apply` step (`src/unnamed/part_001` lines 487-493;
`src/src/PaginationPlus.ts` lines 364-372 is the same without `resizeMeta`):

    apply(tr, oldDeco, oldState, newState) {
      if (tr.docChanged || tr.getMeta(pagination_meta_key) || tr.getMeta(resize_meta_key)) {
        const widgetList = createDecoration(newState, pageOptions)
        return DecorationSet.create(newState.doc, [...widgetList])
      }
      return oldDeco
    }

The decoration rebuild is modelled by `refreshOnce` over the DOM measurements
the widget reads when rendered. -/
def pluginApply (tr : PmTransaction) (oldDeco : List PageBreakDescriptor)
    (totalHeight : ℚ) (previousRendered : ℕ) (g : PaginationPlusOptions) :
    List PageBreakDescriptor :=
  if tr.docChanged || tr.paginationMeta || tr.resizeMeta then
    refreshOnce totalHeight previousRendered g
  else oldDeco

/-- A JavaScript value as tested by `typeof x !== "number"`: either a number
(embedded as `ℚ`) or a non-numeric value. -/
inductive JsVal where
  | num (q : ℚ)
  | notNum
deriving DecidableEq

/-- The `MarginUpdate` interface: `{left?, right?, top?, bottom?}`; a missing
field is `undefined`. -/
structure MarginUpdate where
  left : Option JsVal
  right : Option JsVal
  top : Option JsVal
  bottom : Option JsVal

/-- Validation applied to each provided margin field
(`left !== undefined && (typeof left !== "number" || left < 0)` makes the
command fail). -/
def marginFieldInvalid : Option JsVal → Bool
  | none => false
  | some (.num q) => decide (q < 0)
  | some .notNum => true

/-- Post-validation assignment `if (left !== undefined) options.field = left`.
The `some .notNum` branch is unreachable after validation succeeds (validation
rejects every provided non-numeric field), so it is modelled as keeping the
old value. -/
def applyMarginField (v : Option JsVal) (old : ℚ) : ℚ :=
  match v with
  | some (.num q) => q
  | _ => old

/-- The `updatePageMargins` command (`src/unnamed/part_001` lines 388-423,
`src/src/PaginationPlus.ts` lines 54-195): validate `left`, `right`, `top`,
`bottom` in order, returning `false` on the first invalid provided field with
no option mutated; otherwise assign each provided field
(`left → pageMarginLeft`, `right → pageMarginRight`, `top → pageHeaderHeight`,
`bottom → pageFooterHeight`) and return `true`. -/
def updatePageMargins (opts : PaginationPlusOptions) (m : MarginUpdate) :
    Bool × PaginationPlusOptions :=
  if marginFieldInvalid m.left then (false, opts)
  else if marginFieldInvalid m.right then (false, opts)
  else if marginFieldInvalid m.top then (false, opts)
  else if marginFieldInvalid m.bottom then (false, opts)
  else
    (true,
      { opts with
          pageMarginLeft := applyMarginField m.left opts.pageMarginLeft
          pageMarginRight := applyMarginField m.right opts.pageMarginRight
          pageHeaderHeight := applyMarginField m.top opts.pageHeaderHeight
          pageFooterHeight := applyMarginField m.bottom opts.pageFooterHeight })

/-- The page-top boundary sequence built by `refreshPage`
(`src/unnamed/part_001` lines 176-177, `src/src/PaginationPlus.ts` lines
306-308):

    const pageTops = pageElements.map((el) => el.offsetTop).filter((top) => top !== 0)
    pageTops.push(Number.POSITIVE_INFINITY)

`Number.POSITIVE_INFINITY` is modelled as `⊤` in `WithTop ℚ`. -/
def buildPageTops (pageOffsets : List ℚ) : List (WithTop ℚ) :=
  (pageOffsets.filter (fun t => t ≠ 0)).map (fun t => (t : WithTop ℚ)) ++ [⊤]

/-- The inner bucket-search loop of `refreshPage`: for
`j = 0 .. pageTops.length - 2`, the first `j` with
`top >= pageTops[j] && top < pageTops[j+1]` yields page `j + 1`. -/
def findBucket : List (WithTop ℚ) → ℚ → ℕ → Option ℕ
  | t0 :: t1 :: rest, top, j =>
    if t0 ≤ (top : WithTop ℚ) ∧ (top : WithTop ℚ) < t1 then some (j + 1)
    else findBucket (t1 :: rest) top (j + 1)
  | _, _, _ => none

/-- Classification of one content element's top offset into a page bucket,
given the raw rendered page-element offsets. -/
def classifyOffset (pageOffsets : List ℚ) (top : ℚ) : Option ℕ :=
  findBucket (buildPageTops pageOffsets) top 0

/-- The content elements `refreshPage` actually classifies: the loop
`for (let i = 2; i < contentElements.length - 1; i++)` skips the first two
structural children and the trailing footer spacer. -/
def contentTopsOf (contentElementTops : List ℚ) : List ℚ :=
  (contentElementTops.drop 2).dropLast

/-- The populated page buckets of `refreshPage` (`pagesWithContent`). -/
def pagesWithContent (pageOffsets contentElementTops : List ℚ) : List ℕ :=
  (contentTopsOf contentElementTops).filterMap (classifyOffset pageOffsets)

/-- `maxPage`: the highest populated bucket, `0` when no bucket is populated
(`Math.max(...pagesWithContent)` guarded by `pagesWithContent.size > 0`). -/
def refreshMaxPage (pageOffsets contentElementTops : List ℚ) : ℕ :=
  (pagesWithContent pageOffsets contentElementTops).foldr max 0

/-- The container minimum height set by `refreshPage`
(`src/unnamed/part_001` lines 192-197, `src/src/PaginationPlus.ts` lines
323-326):

    const _maxPage = maxPage + 2
    targetNode.style.minHeight =
      _maxPage * pageHeight + (_maxPage - 1) * (pageGap + 2 * pageGapBorderSize)
-/
def refreshMinHeight (g : PaginationPlusOptions) (pageOffsets contentElementTops : List ℚ) : ℚ :=
  let maxPage := refreshMaxPage pageOffsets contentElementTops
  let _maxPage : ℕ := maxPage + 2
  (_maxPage : ℚ) * g.pageHeight + ((_maxPage : ℚ) - 1) * (g.pageGap + 2 * g.pageGapBorderSize)

/-- The page-count formula exactly as the specification words it: subtract an
overhead of `max(0, previousPageCount - 5) * (pageGap + pageHeaderHeight +
pageFooterHeight + 2 * pageGapBorderSize)` from the sampled height, divide by
the content band height `pageHeight - pageHeaderHeight - pageFooterHeight`
rounding up, then decrement the ceiling by one when positive and take zero
otherwise. Stated for refinement comparison against `estimatePages`. -/
def estimateSpecFormula (H : ℚ) (prev : ℕ) (g : PaginationPlusOptions) : ℕ :=
  let overhead : ℚ := ((max 0 ((prev : ℤ) - 5) : ℤ) : ℚ) *
    (g.pageGap + g.pageHeaderHeight + g.pageFooterHeight + 2 * g.pageGapBorderSize)
  let band : ℚ := g.pageHeight - g.pageHeaderHeight - g.pageFooterHeight
  let c : ℤ := ⌈(H - overhead) / band⌉
  if 0 < c then (c - 1).toNat else 0

/-- Cast bridge between the source's truncated subtraction and the spec's
`max(0, previousPageCount - 5)`. -/
theorem previousPageCount_cast (prev : ℕ) :
    ((if prev > 5 then prev - 5 else 0 : ℕ) : ℚ) = ((max 0 ((prev : ℤ) - 5) : ℤ) : ℚ) := by
  rcases le_or_lt prev 5 with h | h
  · rw [if_neg (by omega), max_eq_left (by omega)]
    simp
  · rw [if_pos (by omega), max_eq_right (by omega)]
    push_cast [Nat.cast_sub h.le]
    ring

/-- C1 (confirmed): for every geometry config, previously rendered page count
and sampled content height, the estimator subtracts the overhead
`max(0, previousPageCount - 5) * (pageGap + pageHeaderHeight +
pageFooterHeight + 2 * pageGapBorderSize)` from the sampled height, divides by
the content band height `pageHeight - pageHeaderHeight - pageFooterHeight`
rounding up, and returns that ceiling decremented by one when positive and
zero otherwise. -/
theorem estimatePages_matches_spec_formula (H : ℚ) (prev : ℕ) (g : PaginationPlusOptions) :
    estimatePages H prev g = estimateSpecFormula H prev g := by
  rw [estimatePages_closed_form]
  show _ = (if 0 < (⌈(H - ((max 0 ((prev : ℤ) - 5) : ℤ) : ℚ) *
      (g.pageGap + g.pageHeaderHeight + g.pageFooterHeight + 2 * g.pageGapBorderSize)) /
      (g.pageHeight - g.pageHeaderHeight - g.pageFooterHeight)⌉ : ℤ)
    then ((⌈(H - ((max 0 ((prev : ℤ) - 5) : ℤ) : ℚ) *
      (g.pageGap + g.pageHeaderHeight + g.pageFooterHeight + 2 * g.pageGapBorderSize)) /
      (g.pageHeight - g.pageHeaderHeight - g.pageFooterHeight)⌉ : ℤ) - 1).toNat
    else 0)
  have harg : (H - ((if prev > 5 then prev - 5 else 0 : ℕ) : ℚ) *
      (g.pageGap + g.pageHeaderHeight + g.pageFooterHeight + g.pageGapBorderSize * 2)) /
      (g.pageHeight - (g.pageHeaderHeight + g.pageFooterHeight)) =
      (H - ((max 0 ((prev : ℤ) - 5) : ℤ) : ℚ) *
      (g.pageGap + g.pageHeaderHeight + g.pageFooterHeight + 2 * g.pageGapBorderSize)) /
      (g.pageHeight - g.pageHeaderHeight - g.pageFooterHeight) := by
    rw [previousPageCount_cast]
    ring_nf
  rw [harg]
  generalize (⌈(H - ((max 0 ((prev : ℤ) - 5) : ℤ) : ℚ) *
      (g.pageGap + g.pageHeaderHeight + g.pageFooterHeight + 2 * g.pageGapBorderSize)) /
      (g.pageHeight - g.pageHeaderHeight - g.pageFooterHeight)⌉ : ℤ) = c
  split <;> omega

/-- C2 (confirmed): for every non-negative estimated page count and every
geometry, the break synthesizer emits exactly `n + 5` descriptors; being a
total function of its inputs, it never fails. -/
theorem synthesize_descriptor_count (pages : ℕ) (g : PaginationPlusOptions) :
    (synthesize pages g).length = pages + 5 := by
  simp [synthesize]

/-- C3 (confirmed): a fixed-string source resolves to that string verbatim on
every page index; an array source resolves to the entry at `pageIndex` and
falls back to the array's last entry when that index is absent or the entry is
falsy (`["A","B"]` at page index 5 resolves to `"B"`); a function source is
invoked with the 1-based page number (`i => "Page " + i` at page index 2
resolves to `"Page 3"`). -/
theorem resolveFooterText_policy :
    (∀ s i, resolveFooterText (.str s) i = s) ∧
    (∀ l i, resolveFooterText (.arr l) i =
      if l.getD i "" = "" then l.getD (l.length - 1) "" else l.getD i "") ∧
    resolveFooterText (.arr ["A", "B"]) 5 = "B" ∧
    (∀ f i, resolveFooterText (.fn f) i = f (i + 1)) ∧
    resolveFooterText (.fn (fun n => "Page " ++ toString n)) 2 = "Page 3" := by
  refine ⟨fun s i => rfl, fun l i => ?_, by decide, fun f i => rfl, by decide⟩
  simp only [resolveFooterText, jsOrString]
  split
  · split <;> simp_all
  · rfl

/-- C4 counterexample: with rendered page-top offsets `[0, 900, 1800]`
(the `∞` sentinel is appended by the engine) and zero offsets excluded as the
code does, the content element at offset 1850 is NOT classified into page
index 3. -/
theorem boundary_classification_counterexample :
    classifyOffset [0, 900, 1800] 1850 ≠ some 3 := by decide

/-- C4 (amended): with rendered page-top offsets `[0, 900, 1800]` plus the
`∞` sentinel, the zero offset is excluded, the participating boundary list is
`[900, 1800, ∞]`, and the content element at offset 1850 falls into the bucket
`[1800, ∞)` at loop position `j = 1`, hence page index `j + 1 = 2`. -/
theorem boundary_classification_page_two :
    classifyOffset [0, 900, 1800] 1850 = some 2 := by decide

/-- C5 (confirmed): for a fixed valid geometry (positive content band) and a
fixed previously rendered page count, the page-count estimate is monotonically
non-decreasing in the sampled content height. -/
theorem estimatePages_monotone (g : PaginationPlusOptions) (prev : ℕ) (H1 H2 : ℚ)
    (hband : g.pageHeaderHeight + g.pageFooterHeight < g.pageHeight)
    (_h0 : 0 ≤ H1) (h12 : H1 ≤ H2) :
    estimatePages H1 prev g ≤ estimatePages H2 prev g := by
  rw [estimatePages_closed_form, estimatePages_closed_form]
  have hb : (0 : ℚ) < g.pageHeight - (g.pageHeaderHeight + g.pageFooterHeight) := by linarith
  have hnum : H1 - ((if prev > 5 then prev - 5 else 0 : ℕ) : ℚ) *
      (g.pageGap + g.pageHeaderHeight + g.pageFooterHeight + g.pageGapBorderSize * 2) ≤
      H2 - ((if prev > 5 then prev - 5 else 0 : ℕ) : ℚ) *
      (g.pageGap + g.pageHeaderHeight + g.pageFooterHeight + g.pageGapBorderSize * 2) := by
    linarith
  have hdiv := (div_le_div_iff_of_pos_right hb).mpr hnum
  have hceil := Int.ceil_mono hdiv
  omega

/-- Witness for C5 at default geometry and heights 100 ≤ 200. -/
theorem estimatePages_monotone_witness :
    (defaultOptions.pageHeaderHeight + defaultOptions.pageFooterHeight <
        defaultOptions.pageHeight ∧ (0 : ℚ) ≤ 100 ∧ (100 : ℚ) ≤ 200) ∧
    estimatePages 100 0 defaultOptions ≤ estimatePages 200 0 defaultOptions :=
  ⟨⟨by norm_num [defaultOptions], by norm_num, by norm_num⟩,
    estimatePages_monotone defaultOptions 0 100 200 (by norm_num [defaultOptions])
      (by norm_num) (by norm_num)⟩

/-- C6 (confirmed): whenever some provided margin field is negative or not a
number, `updatePageMargins` returns `false` and leaves every geometry option
unchanged; validation of every field precedes any mutation, so no partial
application occurs. -/
theorem updatePageMargins_invalid_is_noop (opts : PaginationPlusOptions) (m : MarginUpdate)
    (h : marginFieldInvalid m.left = true ∨ marginFieldInvalid m.right = true ∨
         marginFieldInvalid m.top = true ∨ marginFieldInvalid m.bottom = true) :
    updatePageMargins opts m = (false, opts) := by
  unfold updatePageMargins
  rcases h with h | h | h | h <;> simp [h]

/-- Witness for C6: `updatePageMargins({left: -1})` fails and leaves the
default geometry unchanged. -/
theorem updatePageMargins_invalid_is_noop_witness :
    (marginFieldInvalid (MarginUpdate.left ⟨some (.num (-1)), none, none, none⟩) = true ∨
      marginFieldInvalid (MarginUpdate.right ⟨some (.num (-1)), none, none, none⟩) = true ∨
      marginFieldInvalid (MarginUpdate.top ⟨some (.num (-1)), none, none, none⟩) = true ∨
      marginFieldInvalid (MarginUpdate.bottom ⟨some (.num (-1)), none, none, none⟩) = true) ∧
    updatePageMargins defaultOptions ⟨some (.num (-1)), none, none, none⟩ =
      (false, defaultOptions) :=
  ⟨Or.inl (by decide),
    updatePageMargins_invalid_is_noop defaultOptions ⟨some (.num (-1)), none, none, none⟩
      (Or.inl (by decide))⟩

/-- C7 (confirmed): a transaction that does not change the document and
carries neither the pagination meta key nor the resize meta key makes the
plugin `apply` step return the previous decoration layout verbatim, with no
resynthesis. -/
theorem pluginApply_unrelated_reuses_layout (tr : PmTransaction)
    (oldDeco : List PageBreakDescriptor) (H : ℚ) (prev : ℕ) (g : PaginationPlusOptions)
    (h1 : tr.docChanged = false) (h2 : tr.paginationMeta = false)
    (h3 : tr.resizeMeta = false) :
    pluginApply tr oldDeco H prev g = oldDeco := by
  simp [pluginApply, h1, h2, h3]

/-- Witness for C7 at a concrete no-op transaction and empty previous layout. -/
theorem pluginApply_unrelated_reuses_layout_witness :
    (PmTransaction.docChanged ⟨false, false, false⟩ = false ∧
      PmTransaction.paginationMeta ⟨false, false, false⟩ = false ∧
      PmTransaction.resizeMeta ⟨false, false, false⟩ = false) ∧
    pluginApply ⟨false, false, false⟩ [] 0 0 defaultOptions = [] :=
  ⟨⟨rfl, rfl, rfl⟩,
    pluginApply_unrelated_reuses_layout ⟨false, false, false⟩ [] 0 0 defaultOptions rfl rfl rfl⟩

/-- C8 (confirmed): after terminal-page refresh with highest populated bucket
`maxPage`, the container minimum height equals
`(maxPage + 2) * pageHeight + (maxPage + 1) * (pageGap + 2 * pageGapBorderSize)`. -/
theorem refreshPage_minHeight_formula (g : PaginationPlusOptions)
    (pageOffsets contentElementTops : List ℚ) :
    refreshMinHeight g pageOffsets contentElementTops =
      ((refreshMaxPage pageOffsets contentElementTops : ℚ) + 2) * g.pageHeight +
      ((refreshMaxPage pageOffsets contentElementTops : ℚ) + 1) *
        (g.pageGap + 2 * g.pageGapBorderSize) := by
  unfold refreshMinHeight
  push_cast
  ring

/-- C9 counterexample: with default geometry, sampled content height 10000 and
no previously rendered pagination element, the first resynthesis renders 17
descriptors and the immediately following resynthesis renders 16, so two
successive refreshes with no content change do not yield identical descriptor
counts. -/
theorem refreshTwice_not_idempotent_counterexample :
    (refreshTwice 10000 0 defaultOptions).1.length = 17 ∧
    (refreshTwice 10000 0 defaultOptions).2.length = 16 ∧
    (refreshTwice 10000 0 defaultOptions).2.length ≠
      (refreshTwice 10000 0 defaultOptions).1.length := by
  have h1 : (refreshTwice 10000 0 defaultOptions).1 = synthesize 12 defaultOptions := by
    show refreshOnce 10000 0 defaultOptions = _
    rw [refreshOnce, estimatePages_10000_0]
  have hl1 : (refreshTwice 10000 0 defaultOptions).1.length = 17 := by
    rw [h1, synthesize_length]
  have h2 : (refreshTwice 10000 0 defaultOptions).2 = synthesize 11 defaultOptions := by
    show refreshOnce 10000 (refreshOnce 10000 0 defaultOptions).length defaultOptions = _
    have hlen : (refreshOnce 10000 0 defaultOptions).length = 17 := by
      rw [refreshOnce, estimatePages_10000_0, synthesize_length]
    rw [refreshOnce, hlen, estimatePages_10000_17]
  have hl2 : (refreshTwice 10000 0 defaultOptions).2.length = 16 := by
    rw [h2, synthesize_length]
  exact ⟨hl1, hl2, by omega⟩

/-- C9 (amended): two successive refreshes reproduce the same layout when the
previously rendered page count is already a fixed point of the estimate, i.e.
equals the estimate plus the headroom of 5; in general the second resynthesis
may change the descriptor count. -/
theorem refreshTwice_fixed_point (H : ℚ) (prev : ℕ) (g : PaginationPlusOptions)
    (h : prev = estimatePages H prev g + 5) :
    (refreshTwice H prev g).2 = (refreshTwice H prev g).1 := by
  show refreshOnce H (refreshOnce H prev g).length g = refreshOnce H prev g
  simp only [refreshOnce, synthesize_length]
  rw [← h]

/-- Witness for C9's amended claim: empty content with the steady-state
rendered count of 5 descriptors. -/
theorem refreshTwice_fixed_point_witness :
    5 = estimatePages 0 5 defaultOptions + 5 ∧
    (refreshTwice 0 5 defaultOptions).2 = (refreshTwice 0 5 defaultOptions).1 :=
  ⟨by rw [estimatePages_0_5], refreshTwice_fixed_point 0 5 defaultOptions (by rw [estimatePages_0_5])⟩

/-- On success, `updatePageMargins` returns `true` together with the record
where exactly the provided fields are assigned (shared helper). -/
theorem updatePageMargins_success_eq (opts : PaginationPlusOptions) (m : MarginUpdate)
    (h : (updatePageMargins opts m).1 = true) :
    updatePageMargins opts m =
      (true,
        { opts with
            pageMarginLeft := applyMarginField m.left opts.pageMarginLeft
            pageMarginRight := applyMarginField m.right opts.pageMarginRight
            pageHeaderHeight := applyMarginField m.top opts.pageHeaderHeight
            pageFooterHeight := applyMarginField m.bottom opts.pageFooterHeight }) := by
  unfold updatePageMargins at h ⊢
  split at h
  · simp at h
  · split at h
    · simp at h
    · split at h
      · simp at h
      · split at h
        · simp at h
        · simp_all

/-- C10 (confirmed): a successful `updatePageMargins` changes only the options
corresponding to the provided fields (`left → pageMarginLeft`,
`right → pageMarginRight`, `top → pageHeaderHeight`,
`bottom → pageFooterHeight`); `pageHeight`, `pageGap`, `pageGapBorderSize`,
`pageBreakBackground` and `footerText` are never modified, and a margin field
that is not provided keeps its previous value. -/
theorem updatePageMargins_success_frame (opts : PaginationPlusOptions) (m : MarginUpdate)
    (h : (updatePageMargins opts m).1 = true) :
    (updatePageMargins opts m).2.pageHeight = opts.pageHeight ∧
    (updatePageMargins opts m).2.pageGap = opts.pageGap ∧
    (updatePageMargins opts m).2.pageGapBorderSize = opts.pageGapBorderSize ∧
    (updatePageMargins opts m).2.pageBreakBackground = opts.pageBreakBackground ∧
    (updatePageMargins opts m).2.footerText = opts.footerText ∧
    (updatePageMargins opts m).2.pageMarginLeft = applyMarginField m.left opts.pageMarginLeft ∧
    (updatePageMargins opts m).2.pageMarginRight = applyMarginField m.right opts.pageMarginRight ∧
    (updatePageMargins opts m).2.pageHeaderHeight = applyMarginField m.top opts.pageHeaderHeight ∧
    (updatePageMargins opts m).2.pageFooterHeight = applyMarginField m.bottom opts.pageFooterHeight ∧
    (m.left = none → (updatePageMargins opts m).2.pageMarginLeft = opts.pageMarginLeft) ∧
    (m.right = none → (updatePageMargins opts m).2.pageMarginRight = opts.pageMarginRight) ∧
    (m.top = none → (updatePageMargins opts m).2.pageHeaderHeight = opts.pageHeaderHeight) ∧
    (m.bottom = none → (updatePageMargins opts m).2.pageFooterHeight = opts.pageFooterHeight) := by
  rw [updatePageMargins_success_eq opts m h]
  refine ⟨rfl, rfl, rfl, rfl, rfl, rfl, rfl, rfl, rfl, ?_, ?_, ?_, ?_⟩ <;>
    (intro hnone; rw [hnone]) <;> rfl

/-- Witness for C10: providing only `top = 20` on the default geometry
succeeds, sets `pageHeaderHeight` to 20, and leaves every other option at its
previous value. -/
theorem updatePageMargins_success_frame_witness :
    (updatePageMargins defaultOptions ⟨none, none, some (.num 20), none⟩).1 = true ∧
    ((updatePageMargins defaultOptions ⟨none, none, some (.num 20), none⟩).2.pageHeight =
        defaultOptions.pageHeight ∧
      (updatePageMargins defaultOptions ⟨none, none, some (.num 20), none⟩).2.pageGap =
        defaultOptions.pageGap ∧
      (updatePageMargins defaultOptions ⟨none, none, some (.num 20), none⟩).2.pageGapBorderSize =
        defaultOptions.pageGapBorderSize ∧
      (updatePageMargins defaultOptions ⟨none, none, some (.num 20), none⟩).2.pageBreakBackground =
        defaultOptions.pageBreakBackground ∧
      (updatePageMargins defaultOptions ⟨none, none, some (.num 20), none⟩).2.footerText =
        defaultOptions.footerText ∧
      (updatePageMargins defaultOptions ⟨none, none, some (.num 20), none⟩).2.pageMarginLeft =
        applyMarginField none defaultOptions.pageMarginLeft ∧
      (updatePageMargins defaultOptions ⟨none, none, some (.num 20), none⟩).2.pageMarginRight =
        applyMarginField none defaultOptions.pageMarginRight ∧
      (updatePageMargins defaultOptions ⟨none, none, some (.num 20), none⟩).2.pageHeaderHeight =
        applyMarginField (some (.num 20)) defaultOptions.pageHeaderHeight ∧
      (updatePageMargins defaultOptions ⟨none, none, some (.num 20), none⟩).2.pageFooterHeight =
        applyMarginField none defaultOptions.pageFooterHeight ∧
      ((none : Option JsVal) = none →
        (updatePageMargins defaultOptions ⟨none, none, some (.num 20), none⟩).2.pageMarginLeft =
          defaultOptions.pageMarginLeft) ∧
      ((none : Option JsVal) = none →
        (updatePageMargins defaultOptions ⟨none, none, some (.num 20), none⟩).2.pageMarginRight =
          defaultOptions.pageMarginRight) ∧
      ((some (.num 20) : Option JsVal) = none →
        (updatePageMargins defaultOptions ⟨none, none, some (.num 20), none⟩).2.pageHeaderHeight =
          defaultOptions.pageHeaderHeight) ∧
      ((none : Option JsVal) = none →
        (updatePageMargins defaultOptions ⟨none, none, some (.num 20), none⟩).2.pageFooterHeight =
          defaultOptions.pageFooterHeight)) :=
  ⟨by decide,
    updatePageMargins_success_frame defaultOptions ⟨none, none, some (.num 20), none⟩ (by decide)⟩
